import Mathlib

/-!  Shallow embedding of the low-latency network tester / monitor
     (`alert_module.py`, `latency_visualizer.py`).

     Conventions used throughout:
     * a pandas NaN / missing numeric cell is modelled as `none : Option ℚ`;
       a comparison `NaN > c` is `false`, as in pandas/NumPy;
     * float arithmetic is idealised as exact rational arithmetic;
     * `Series.std()` uses `ddof = 1` (sample standard deviation) and skips
       NaN cells; its value is irrational in general, so snapshots carry its
       square (`jitterSq`, the sample variance), which determines the standard
       deviation uniquely since it is nonnegative.  The float comparison
       `std > thr` is embedded as `sqrtGT`; the lemma `sqrtGT_iff_real`
       shows it coincides with `(thr : ℝ) < Real.sqrt v`. -/

namespace NetMon

/-- One row of the probe log, after timestamp parsing: columns `timestamp`,
`rtt`, `status`, `interface_drops`, `interface_errors`.  `rtt` is `none`
when the cell is blank / NaN. -/
structure Record where
  timestamp : ℚ
  rtt : Option ℚ
  status : String
  interface_drops : ℚ
  interface_errors : ℚ
  deriving DecidableEq, Repr

/-- The `df['status'] == 'success'` test. -/
def Record.isSuccess (r : Record) : Bool := r.status == "success"

/-- pandas `Series.mean()` over the non-null values: NaN (`none`) on an
empty series. -/
def mean (xs : List ℚ) : Option ℚ :=
  if xs.isEmpty then none else some (xs.sum / (xs.length : ℚ))

/-- pandas `Series.min()` over the non-null values. -/
def listMin : List ℚ → Option ℚ
  | [] => none
  | x :: xs => some (xs.foldl min x)

/-- pandas `Series.max()` over the non-null values. -/
def listMax : List ℚ → Option ℚ
  | [] => none
  | x :: xs => some (xs.foldl max x)

/-- Sample variance (`ddof = 1`), the square of pandas `Series.std()`;
`none` (NaN) exactly when fewer than 2 values are present. -/
def sampleVar (xs : List ℚ) : Option ℚ :=
  if xs.length < 2 then none
  else
    some (((xs.map fun x => (x - xs.sum / (xs.length : ℚ)) ^ 2).sum) /
      ((xs.length : ℚ) - 1))

/-- Boolean form of `thr < Real.sqrt v` (for `0 ≤ v`) in exact arithmetic;
used to embed the float comparison `stats['jitter'] > threshold`. -/
def sqrtGT (v thr : ℚ) : Bool := decide (thr < 0) || decide (thr ^ 2 < v)

/-- pandas `Series.quantile(q)` with the default linear interpolation
between ranks. -/
def quantileLinear (xs : List ℚ) (q : ℚ) : Option ℚ :=
  let s := List.insertionSort (· ≤ ·) xs
  if s.isEmpty then none
  else
    let n := s.length
    let pos : ℚ := q * ((n : ℚ) - 1)
    let i : ℕ := Int.toNat ⌊pos⌋
    let frac : ℚ := pos - (i : ℚ)
    let lo := s.getD i 0
    let hi := s.getD (min (i + 1) (n - 1)) 0
    some (lo + frac * (hi - lo))

/-- `df[df['status'] == 'success']` (alert_module.py line 81). -/
def successfulPings (df : List Record) : List Record := df.filter Record.isSuccess

/-- The non-null `rtt` values of the successful rows (pandas `mean`, `std`,
`min`, `max` skip NaN cells). -/
def srtts (df : List Record) : List ℚ := (successfulPings df).filterMap Record.rtt

/-- The dict built by `LatencyAlertMonitor.calculate_statistics`
(alert_module.py lines 85-91).  `jitterSq` carries the square of
`successful_pings['rtt'].std()`; see the module docstring. -/
structure AlertStats where
  avg : Option ℚ
  max : Option ℚ
  min : Option ℚ
  jitterSq : Option ℚ
  loss_rate : ℚ
  deriving DecidableEq, Repr

/-- The literal key set of that dict (source lines 85-91). -/
def alertStatsKeys : List String := ["avg", "max", "min", "jitter", "loss_rate"]

/-- `LatencyAlertMonitor.calculate_statistics` (alert_module.py lines 76-92). -/
def calculate_statistics (df : List Record) : Option AlertStats :=
  if df.isEmpty then none
  else if (successfulPings df).isEmpty then none
  else some
    { avg := mean (srtts df),
      max := listMax (srtts df),
      min := listMin (srtts df),
      jitterSq := sampleVar (srtts df),
      loss_rate := (1 - ((successfulPings df).length : ℚ) / (df.length : ℚ)) * 100 }

/-- `self.last_alert_time`: one optional last-dispatch timestamp per metric
key. -/
structure AlertState where
  rtt : Option ℚ
  jitter : Option ℚ
  loss_rate : Option ℚ
  deriving DecidableEq, Repr

/-- The initial, empty `last_alert_time` map. -/
def AlertState.empty : AlertState := ⟨none, none, none⟩

/-- One guarded dispatch block of `check_thresholds`: `breach` is the
`stats[m] > threshold[m]` test; returns whether a notification was
dispatched, and the new `last_alert_time[m]`. -/
def gatedDispatch (cooldown : ℚ) (breach : Bool) (now : ℚ) (last : Option ℚ) :
    Bool × Option ℚ :=
  if breach then
    match last with
    | none => (true, some now)
    | some t => if now - t > cooldown then (true, some now) else (false, some t)
  else (false, last)

/-- The per-metric block of `check_thresholds` for a (non-NaN) metric
value `v`. -/
def checkMetric (threshold cooldown v now : ℚ) (last : Option ℚ) :
    Bool × Option ℚ :=
  gatedDispatch cooldown (decide (v > threshold)) now last

/-- `NaN > threshold` is false in pandas/Python. -/
def optGT (x : Option ℚ) (threshold : ℚ) : Bool :=
  match x with
  | some v => decide (v > threshold)
  | none => false

/-- `stats['jitter'] > threshold`, where the snapshot carries the variance
(the square of the std). -/
def optSqrtGT (x : Option ℚ) (threshold : ℚ) : Bool :=
  match x with
  | some v => sqrtGT v threshold
  | none => false

/-- Configuration surface of `LatencyAlertMonitor`: the three thresholds,
the trailing window duration and the alert cooldown. -/
structure Config where
  rtt : ℚ
  jitter : ℚ
  loss_rate : ℚ
  window_size : ℚ
  alert_cooldown : ℚ
  deriving DecidableEq, Repr

/-- Defaults from `LatencyAlertMonitor.__init__`. -/
def defaultConfig : Config := ⟨100, 20, 5, 300, 300⟩

/-- `LatencyAlertMonitor.check_thresholds` (alert_module.py lines 45-74):
returns the keys of the metrics for which a notification was dispatched
this tick, and the updated `last_alert_time` map.  Message formatting and
delivery belong to the external notifier and are not modelled. -/
def check_thresholds (cfg : Config) (stats : AlertStats) (now : ℚ)
    (st : AlertState) : List String × AlertState :=
  let rttR := gatedDispatch cfg.alert_cooldown (optGT stats.avg cfg.rtt) now st.rtt
  let jitR := gatedDispatch cfg.alert_cooldown (optSqrtGT stats.jitterSq cfg.jitter)
    now st.jitter
  let lossR := gatedDispatch cfg.alert_cooldown
    (decide (stats.loss_rate > cfg.loss_rate)) now st.loss_rate
  ((if rttR.1 then ["rtt"] else []) ++ (if jitR.1 then ["jitter"] else []) ++
      (if lossR.1 then ["loss_rate"] else []),
    ⟨rttR.2, jitR.2, lossR.2⟩)

/-- The window filter of `monitor` (alert_module.py line 105): rows strictly
newer than `now - window_size`; note the absence of an upper bound on the
timestamp. -/
def extractWindow (records : List Record) (now windowSize : ℚ) : List Record :=
  records.filter fun r => decide (r.timestamp > now - windowSize)

/-- One iteration of `LatencyAlertMonitor.monitor` (alert_module.py lines
103-110) on already-parsed records. -/
def monitorTick (cfg : Config) (records : List Record) (now : ℚ)
    (st : AlertState) : List String × AlertState :=
  let recent := extractWindow records now cfg.window_size
  if recent.isEmpty then ([], st)
  else
    match calculate_statistics recent with
    | none => ([], st)
    | some stats => check_thresholds cfg stats now st

/-- Folding one metric's guarded dispatch over a sequence of evaluation
ticks, given as `(now, value)` pairs; counts dispatched notifications and
returns the final `last_alert_time[m]`. -/
def runAlerts (threshold cooldown : ℚ) : List (ℚ × ℚ) → Option ℚ → ℕ × Option ℚ
  | [], st => (0, st)
  | (now, v) :: rest, st =>
    let r := checkMetric threshold cooldown v now st
    let rr := runAlerts threshold cooldown rest r.2
    ((if r.1 then 1 else 0) + rr.1, rr.2)

/-- The raw `timestamp` cell of a CSV row, as `pd.to_datetime` sees it:
parseable, blank (becomes NaT), or unparsable (raises). -/
inductive TsCell where
  | parsed (t : ℚ)
  | blank
  | garbage
  deriving DecidableEq, Repr

/-- A CSV row before timestamp parsing. -/
structure RawRow where
  timestamp : TsCell
  rtt : Option ℚ
  status : String
  interface_drops : ℚ
  interface_errors : ℚ
  deriving DecidableEq, Repr

/-- `pd.to_datetime(df['timestamp'])` with the default `errors='raise'`:
a single unparsable cell raises (so the whole frame is lost), a blank cell
becomes NaT (`none`). -/
def to_datetime (rows : List RawRow) : Except Unit (List (Option ℚ × RawRow)) :=
  rows.mapM fun r =>
    match r.timestamp with
    | .parsed t => Except.ok (some t, r)
    | .blank => Except.ok (none, r)
    | .garbage => Except.error ()

/-- A NaT timestamp compares false against every cutoff, so a NaT row can
never enter any window; dropping those rows right after parsing yields the
same windows as the source, which keeps them in the frame. -/
def parsedRecords (prs : List (Option ℚ × RawRow)) : List Record :=
  prs.filterMap fun p =>
    p.1.map fun t =>
      { timestamp := t, rtt := p.2.rtt, status := p.2.status,
        interface_drops := p.2.interface_drops,
        interface_errors := p.2.interface_errors }

/-- One iteration of the monitor loop starting from the raw CSV rows: the
`except` at alert_module.py line 114 catches a `to_datetime` failure, so
the whole tick is skipped. -/
def monitorTickRaw (cfg : Config) (rows : List RawRow) (now : ℚ)
    (st : AlertState) : List String × AlertState :=
  match to_datetime rows with
  | Except.error _ => ([], st)
  | Except.ok prs => monitorTick cfg (parsedRecords prs) now st

/-- `BaseMonitorWindow.load_data` (latency_visualizer.py lines 35-50): any
exception yields an empty frame; otherwise timestamps are parsed and `rtt`
is overwritten with NaN on `failed` rows. -/
def load_data (rows : List RawRow) : List Record :=
  match to_datetime rows with
  | Except.error _ => []
  | Except.ok prs =>
    (parsedRecords prs).map fun r =>
      if r.status == "failed" then { r with rtt := none } else r

/-- The plotting window of `update_plot` (latency_visualizer.py lines
65-71): `now` is the maximum record timestamp and the interval is closed
at both ends. -/
def visWindow (df : List Record) (windowSize : ℚ) : List Record :=
  match listMax (df.map Record.timestamp) with
  | none => []
  | some current =>
    df.filter fun r =>
      decide (current - windowSize ≤ r.timestamp) && decide (r.timestamp ≤ current)

/-- pandas `Series.diff()`: first entry NaN, then consecutive differences,
propagating NaN. -/
def diffs : List (Option ℚ) → List (Option ℚ)
  | [] => []
  | x :: xs =>
    none :: List.zipWith (fun a b =>
      match a, b with
      | some a0, some b0 => some (b0 - a0)
      | _, _ => none) (x :: xs) xs

/-- `df['rtt_diff'] = df['rtt'].diff()` (latency_visualizer.py line 146). -/
def rtt_diff (df : List Record) : List (Option ℚ) := diffs (df.map Record.rtt)

/-- The per-entry sanity ceiling of line 147: a diff larger than 100 ms in
absolute value is overwritten with NaN. -/
def ceilDiff (d : Option ℚ) : Option ℚ :=
  match d with
  | some v => if |v| > 100 then none else some v
  | none => none

/-- Line 147 applied to the whole `rtt_diff` column. -/
def rtt_diff_ceiled (df : List Record) : List (Option ℚ) :=
  (rtt_diff df).map ceilDiff

/-- `MicroburstMonitor.detect_microbursts` (latency_visualizer.py lines
142-149): the rows whose ceiled diff exceeds the threshold in absolute
value, each paired with that diff. -/
def detect_microbursts (threshold : ℚ) (df : List Record) : List (Record × ℚ) :=
  if df.isEmpty then []
  else
    (df.zip (rtt_diff_ceiled df)).filterMap fun p =>
      match p.2 with
      | some d => if |d| > threshold then some (p.1, d) else none
      | none => none

/-- The validity filter of `StatsDashboard.calculate_stats`
(latency_visualizer.py lines 223-228): successful, non-null `rtt`,
`rtt < 1000` and `rtt > 0`. -/
def validPings (df : List Record) : List Record :=
  df.filter fun r =>
    r.isSuccess && (match r.rtt with
      | some v => decide (v < 1000) && decide (0 < v)
      | none => false)

/-- The (all non-null) `rtt` values of the valid rows. -/
def vrtts (df : List Record) : List ℚ := (validPings df).filterMap Record.rtt

/-- The dict built by `StatsDashboard.calculate_stats` (latency_visualizer.py
lines 233-242); `p99` is the source key `'99th_percentile'`. -/
structure DashStats where
  avg_latency : Option ℚ
  min_latency : Option ℚ
  max_latency : Option ℚ
  jitterSq : Option ℚ
  packet_loss : ℚ
  p99 : Option ℚ
  interface_drops : Option ℚ
  interface_errors : Option ℚ
  deriving DecidableEq, Repr

/-- The literal key set of that dict. -/
def dashStatsKeys : List String :=
  ["avg_latency", "min_latency", "max_latency", "jitter", "packet_loss",
   "99th_percentile", "interface_drops", "interface_errors"]

/-- `StatsDashboard.calculate_stats` (latency_visualizer.py lines 219-243). -/
def calculate_stats (df : List Record) : Option DashStats :=
  if df.isEmpty then none
  else if (validPings df).isEmpty then none
  else some
    { avg_latency := mean (vrtts df),
      min_latency := listMin (vrtts df),
      max_latency := listMax (vrtts df),
      jitterSq := sampleVar (vrtts df),
      packet_loss := (1 - ((validPings df).length : ℚ) / (df.length : ℚ)) * 100,
      p99 := quantileLinear (vrtts df) (99 / 100),
      interface_drops := (df.getLast?).map Record.interface_drops,
      interface_errors := (df.getLast?).map Record.interface_errors }

/-- Test fixture: a successful probe row with timestamp `t` and rtt `v`. -/
def rS (t v : ℚ) : Record := ⟨t, some v, "success", 0, 0⟩

/-- Test fixture: a failed probe row (blank rtt cell) with timestamp `t`. -/
def rF (t : ℚ) : Record := ⟨t, none, "failed", 0, 0⟩

/-- Test fixture: a well-formed CSV row whose rtt is above the default
rtt threshold. -/
def hotRow : RawRow := ⟨.parsed 0, some 150, "success", 0, 0⟩

/-- Test fixture: a CSV row with an unparsable timestamp cell. -/
def badRow : RawRow := ⟨.garbage, some 12, "success", 0, 0⟩

section Proofs

/- The Batteries rational operations are `@[irreducible]` by default, which
blocks `decide` on concrete rational computations; restore kernel-style
reducibility locally for the proofs below. -/
attribute [local semireducible] Rat.sub Rat.add Rat.mul Rat.inv

theorem sqrtGT_iff_real (v thr : ℚ) :
    sqrtGT v thr = true ↔ (thr : ℝ) < Real.sqrt (v : ℝ) := by
  by_cases hthr : thr < 0
  · have h0 : (thr : ℝ) < 0 := by exact_mod_cast hthr
    simp [sqrtGT, hthr, lt_of_lt_of_le h0 (Real.sqrt_nonneg _)]
  · have h0 : (0 : ℝ) ≤ (thr : ℝ) := by exact_mod_cast not_lt.mp hthr
    rw [Real.lt_sqrt h0]
    simp only [sqrtGT, Bool.or_eq_true, decide_eq_true_eq]
    constructor
    · rintro (h | h)
      · exact absurd h hthr
      · exact_mod_cast h
    · intro h
      exact Or.inr (by exact_mod_cast h)

theorem gatedDispatch_fired_iff (cooldown : ℚ) (breach : Bool) (now : ℚ)
    (last : Option ℚ) :
    (gatedDispatch cooldown breach now last).1 = true ↔
      breach = true ∧
        (last = none ∨ ∃ t, last = some t ∧ now - t > cooldown) := by
  cases breach <;> cases last <;> simp [gatedDispatch]
  case true.some t => split <;> simp_all

theorem gatedDispatch_state_eq (cooldown : ℚ) (breach : Bool) (now : ℚ)
    (last : Option ℚ) :
    (gatedDispatch cooldown breach now last).2 =
      if (gatedDispatch cooldown breach now last).1 then some now else last := by
  cases breach <;> cases last <;> simp [gatedDispatch]
  case true.some t => split <;> simp_all

theorem gatedDispatch_no_breach (cooldown now : ℚ) (last : Option ℚ) :
    gatedDispatch cooldown false now last = (false, last) := rfl

theorem gatedDispatch_cooling (cooldown : ℚ) (b : Bool) (now t : ℚ)
    (h : now - t ≤ cooldown) :
    gatedDispatch cooldown b now (some t) = (false, some t) := by
  cases b
  · rfl
  · simp [gatedDispatch, not_lt.mpr h]

theorem runAlerts_nil (thr cd : ℚ) (st : Option ℚ) :
    runAlerts thr cd [] st = (0, st) := rfl

theorem runAlerts_cons (thr cd now v : ℚ) (rest : List (ℚ × ℚ)) (st : Option ℚ) :
    runAlerts thr cd ((now, v) :: rest) st =
      ((if (checkMetric thr cd v now st).1 then 1 else 0) +
          (runAlerts thr cd rest (checkMetric thr cd v now st).2).1,
        (runAlerts thr cd rest (checkMetric thr cd v now st).2).2) := rfl

theorem runAlerts_quiet_within (thr cd t0 : ℚ) (l : List (ℚ × ℚ))
    (h : ∀ p ∈ l, p.1 - t0 ≤ cd) :
    runAlerts thr cd l (some t0) = (0, some t0) := by
  induction l with
  | nil => rfl
  | cons p rest ih =>
    obtain ⟨now, v⟩ := p
    have h1 : now - t0 ≤ cd := h _ (List.mem_cons_self _ _)
    have hcm : checkMetric thr cd v now (some t0) = (false, some t0) :=
      gatedDispatch_cooling cd (decide (v > thr)) now t0 h1
    rw [runAlerts_cons, hcm]
    simp [ih fun q hq => h q (List.mem_cons_of_mem _ hq)]

theorem runAlerts_append (thr cd : ℚ) (l1 l2 : List (ℚ × ℚ)) (st : Option ℚ) :
    runAlerts thr cd (l1 ++ l2) st =
      ((runAlerts thr cd l1 st).1 +
          (runAlerts thr cd l2 (runAlerts thr cd l1 st).2).1,
        (runAlerts thr cd l2 (runAlerts thr cd l1 st).2).2) := by
  induction l1 generalizing st with
  | nil => simp [runAlerts_nil]
  | cons p rest ih =>
    obtain ⟨now, v⟩ := p
    rw [List.cons_append, runAlerts_cons, runAlerts_cons, ih]
    simp [Nat.add_assoc]

theorem checkMetric_fires (thr cd v now : ℚ) (last : Option ℚ)
    (hv : v > thr) (hq : last = none ∨ ∃ t, last = some t ∧ now - t > cd) :
    checkMetric thr cd v now last = (true, some now) := by
  rcases hq with h | ⟨t, ht, hcd⟩
  · subst h; simp [checkMetric, gatedDispatch, hv]
  · subst ht; simp [checkMetric, gatedDispatch, hv, hcd]

theorem calculate_statistics_eq_some {df : List Record} {s : AlertStats}
    (h : calculate_statistics df = some s) :
    successfulPings df ≠ [] ∧
      s = ⟨mean (srtts df), listMax (srtts df), listMin (srtts df),
        sampleVar (srtts df),
        (1 - ((successfulPings df).length : ℚ) / (df.length : ℚ)) * 100⟩ := by
  unfold calculate_statistics at h
  by_cases h1 : df.isEmpty = true
  · rw [if_pos h1] at h; exact absurd h (by simp)
  · rw [if_neg h1] at h
    by_cases h2 : (successfulPings df).isEmpty = true
    · rw [if_pos h2] at h; exact absurd h (by simp)
    · rw [if_neg h2] at h
      exact ⟨by simpa using h2, (Option.some_inj.mp h).symm⟩

theorem calculate_statistics_none_of_no_success {df : List Record}
    (h : successfulPings df = []) : calculate_statistics df = none := by
  unfold calculate_statistics
  by_cases h1 : df.isEmpty = true
  · rw [if_pos h1]
  · rw [if_neg h1, if_pos (by simp [h])]

theorem calculate_statistics_none_iff (df : List Record) :
    calculate_statistics df = none ↔ successfulPings df = [] := by
  constructor
  · intro h
    by_contra hne
    have h1 : df.isEmpty = false := by
      rcases List.eq_nil_or_concat df with h | ⟨l, a, rfl⟩
      · exact absurd (by simp [h, successfulPings]) hne
      · simp
    unfold calculate_statistics at h
    rw [if_neg (by simp [h1]), if_neg (by simpa using hne)] at h
    exact absurd h (by simp)
  · exact calculate_statistics_none_of_no_success

theorem calculate_stats_eq_some {df : List Record} {d : DashStats}
    (h : calculate_stats df = some d) :
    validPings df ≠ [] ∧
      d = ⟨mean (vrtts df), listMin (vrtts df), listMax (vrtts df),
        sampleVar (vrtts df),
        (1 - ((validPings df).length : ℚ) / (df.length : ℚ)) * 100,
        quantileLinear (vrtts df) (99 / 100),
        (df.getLast?).map Record.interface_drops,
        (df.getLast?).map Record.interface_errors⟩ := by
  unfold calculate_stats at h
  by_cases h1 : df.isEmpty = true
  · rw [if_pos h1] at h; exact absurd h (by simp)
  · rw [if_neg h1] at h
    by_cases h2 : (validPings df).isEmpty = true
    · rw [if_pos h2] at h; exact absurd h (by simp)
    · rw [if_neg h2] at h
      exact ⟨by simpa using h2, (Option.some_inj.mp h).symm⟩

theorem calculate_stats_none_iff (df : List Record) :
    calculate_stats df = none ↔ validPings df = [] := by
  constructor
  · intro h
    by_contra hne
    have h1 : df.isEmpty = false := by
      rcases List.eq_nil_or_concat df with h | ⟨l, a, rfl⟩
      · exact absurd (by simp [h, validPings]) hne
      · simp
    unfold calculate_stats at h
    rw [if_neg (by simp [h1]), if_neg (by simpa using hne)] at h
    exact absurd h (by simp)
  · intro h
    unfold calculate_stats
    by_cases h1 : df.isEmpty = true
    · rw [if_pos h1]
    · rw [if_neg h1, if_pos (by simp [h])]

theorem monitorTick_no_success {cfg : Config} {records : List Record} {now : ℚ}
    {st : AlertState}
    (h : successfulPings (extractWindow records now cfg.window_size) = []) :
    monitorTick cfg records now st = ([], st) := by
  unfold monitorTick
  by_cases h1 : (extractWindow records now cfg.window_size).isEmpty = true
  · rw [if_pos h1]
  · rw [if_neg h1, calculate_statistics_none_of_no_success h]

theorem loss_rate_formula_bounds {a n : ℚ} (ha : 1 ≤ a) (han : a ≤ n) :
    0 ≤ (1 - a / n) * 100 ∧ (1 - a / n) * 100 < 100 := by
  have hn : 0 < n := lt_of_lt_of_le one_pos (le_trans ha han)
  have h1 : 0 < a / n := div_pos (by linarith) hn
  have h2 : a / n ≤ 1 := (div_le_one hn).mpr han
  constructor <;> nlinarith

theorem sampleVar_none_iff (xs : List ℚ) :
    sampleVar xs = none ↔ xs.length < 2 := by
  unfold sampleVar
  by_cases h : xs.length < 2 <;> simp [h]

theorem sampleVar_of_two_le {xs : List ℚ} (h : 2 ≤ xs.length) :
    sampleVar xs =
      some (((xs.map fun x => (x - xs.sum / (xs.length : ℚ)) ^ 2).sum) /
        ((xs.length : ℚ) - 1)) := by
  unfold sampleVar
  rw [if_neg (by omega)]

theorem optGT_iff_exists (x : Option ℚ) (thr : ℚ) :
    optGT x thr = true ↔ ∃ v, x = some v ∧ v > thr := by
  cases x <;> simp [optGT]

theorem optSqrtGT_iff_exists (x : Option ℚ) (thr : ℚ) :
    optSqrtGT x thr = true ↔ ∃ v, x = some v ∧ sqrtGT v thr = true := by
  cases x <;> simp [optSqrtGT]

theorem mem_notif_cat (b1 b2 b3 : Bool) :
    ("rtt" ∈ ((if b1 then ["rtt"] else []) ++ (if b2 then ["jitter"] else []) ++
        (if b3 then ["loss_rate"] else [])) ↔ b1 = true) ∧
    ("jitter" ∈ ((if b1 then ["rtt"] else []) ++ (if b2 then ["jitter"] else []) ++
        (if b3 then ["loss_rate"] else [])) ↔ b2 = true) ∧
    ("loss_rate" ∈ ((if b1 then ["rtt"] else []) ++ (if b2 then ["jitter"] else []) ++
        (if b3 then ["loss_rate"] else [])) ↔ b3 = true) := by
  cases b1 <;> cases b2 <;> cases b3 <;> decide

theorem check_thresholds_fst (cfg : Config) (s : AlertStats) (now : ℚ)
    (st : AlertState) :
    (check_thresholds cfg s now st).1 =
      ((if (gatedDispatch cfg.alert_cooldown (optGT s.avg cfg.rtt) now st.rtt).1
          then ["rtt"] else []) ++
        (if (gatedDispatch cfg.alert_cooldown (optSqrtGT s.jitterSq cfg.jitter)
            now st.jitter).1 then ["jitter"] else []) ++
        (if (gatedDispatch cfg.alert_cooldown
            (decide (s.loss_rate > cfg.loss_rate)) now st.loss_rate).1
          then ["loss_rate"] else [])) := rfl

theorem runAlerts_first_fire (thr cd t0 v0 : ℚ) (rest : List (ℚ × ℚ))
    (h0 : v0 > thr) (hcd : ∀ p ∈ rest, p.1 - t0 ≤ cd) :
    runAlerts thr cd ((t0, v0) :: rest) none = (1, some t0) := by
  rw [runAlerts_cons, checkMetric_fires thr cd v0 t0 none h0 (Or.inl rfl)]
  simp [runAlerts_quiet_within thr cd t0 rest hcd]

/-- Claim C1: for each metric in `{rtt(avg), jitter, loss_rate}` a
notification is dispatched on a tick iff the snapshot value strictly
exceeds the metric's threshold and either no alert for the metric was ever
dispatched or more than `alert_cooldown` seconds have elapsed since
`last_alert_time[m]`; hence a breach sustained across consecutive ticks
within `alert_cooldown` of the first dispatch yields exactly one
notification, and exactly one more once the cooldown has elapsed with the
breach still active.  (For jitter, "value exceeds threshold" is the
standard-deviation comparison, carried as `sqrtGT` on the variance.) -/
theorem claim_C1_dispatch_iff_and_dedup :
    (∀ (cfg : Config) (s : AlertStats) (now : ℚ) (st : AlertState),
      ("rtt" ∈ (check_thresholds cfg s now st).1 ↔
        (∃ a, s.avg = some a ∧ a > cfg.rtt) ∧
          (st.rtt = none ∨ ∃ t, st.rtt = some t ∧ now - t > cfg.alert_cooldown)) ∧
      ("jitter" ∈ (check_thresholds cfg s now st).1 ↔
        (∃ v, s.jitterSq = some v ∧ sqrtGT v cfg.jitter = true) ∧
          (st.jitter = none ∨
            ∃ t, st.jitter = some t ∧ now - t > cfg.alert_cooldown)) ∧
      ("loss_rate" ∈ (check_thresholds cfg s now st).1 ↔
        s.loss_rate > cfg.loss_rate ∧
          (st.loss_rate = none ∨
            ∃ t, st.loss_rate = some t ∧ now - t > cfg.alert_cooldown))) ∧
    (∀ (thr cd t0 v0 : ℚ) (rest : List (ℚ × ℚ)),
      v0 > thr → (∀ p ∈ rest, p.2 > thr) → (∀ p ∈ rest, p.1 - t0 ≤ cd) →
      runAlerts thr cd ((t0, v0) :: rest) none = (1, some t0)) ∧
    (∀ (thr cd t0 v0 : ℚ) (rest : List (ℚ × ℚ)) (tb vb : ℚ),
      v0 > thr → (∀ p ∈ rest, p.2 > thr) → (∀ p ∈ rest, p.1 - t0 ≤ cd) →
      vb > thr → tb - t0 > cd →
      runAlerts thr cd (((t0, v0) :: rest) ++ [(tb, vb)]) none = (2, some tb)) := by
  refine ⟨fun cfg s now st => ⟨?_, ?_, ?_⟩, ?_, ?_⟩
  · rw [check_thresholds_fst, (mem_notif_cat _ _ _).1, gatedDispatch_fired_iff,
      optGT_iff_exists]
  · rw [check_thresholds_fst, (mem_notif_cat _ _ _).2.1, gatedDispatch_fired_iff,
      optSqrtGT_iff_exists]
  · rw [check_thresholds_fst, (mem_notif_cat _ _ _).2.2, gatedDispatch_fired_iff,
      decide_eq_true_eq]
  · exact fun thr cd t0 v0 rest h0 _ hcd => runAlerts_first_fire thr cd t0 v0 rest h0 hcd
  · intro thr cd t0 v0 rest tb vb h0 hrest hcd hb htb
    rw [runAlerts_append, runAlerts_first_fire thr cd t0 v0 rest h0 hcd]
    rw [runAlerts_cons,
      checkMetric_fires thr cd vb tb (some t0) hb (Or.inr ⟨t0, rfl, htb⟩)]
    simp [runAlerts_nil]

/-- Witness for C1 at the spec's §8 scenario: threshold 100, cooldown 300;
a breach at times 0, 100, 200 dispatches once; a further breaching tick at
time 400 dispatches exactly one more. -/
theorem claim_C1_witness :
    ((150 : ℚ) > 100 ∧
      (∀ p ∈ [((100 : ℚ), (150 : ℚ)), (200, 150)], p.2 > 100) ∧
      (∀ p ∈ [((100 : ℚ), (150 : ℚ)), (200, 150)], p.1 - 0 ≤ 300) ∧
      (400 : ℚ) - 0 > 300) ∧
    runAlerts 100 300 [(0, 150), (100, 150), (200, 150)] none = (1, some 0) ∧
    runAlerts 100 300 [(0, 150), (100, 150), (200, 150), (400, 150)] none
      = (2, some 400) :=
  ⟨by decide,
    claim_C1_dispatch_iff_and_dedup.2.1 100 300 0 150 [(100, 150), (200, 150)]
      (by decide) (by decide) (by decide),
    claim_C1_dispatch_iff_and_dedup.2.2 100 300 0 150 [(100, 150), (200, 150)]
      400 150 (by decide) (by decide) (by decide) (by decide) (by decide)⟩

/-- Claim C5: on a tick where the snapshot value for a metric is at or
below its threshold, no notification for that metric is sent and
`last_alert_time[m]` is unchanged; consequently, after a first alert, any
sequence of ticks within `alert_cooldown` of it — including dropping below
threshold and breaching again — produces no second notification. -/
theorem claim_C5_no_breach_frame :
    (∀ (cfg : Config) (s : AlertStats) (now : ℚ) (st : AlertState),
      (∀ a, s.avg = some a → ¬(a > cfg.rtt) →
        "rtt" ∉ (check_thresholds cfg s now st).1 ∧
          (check_thresholds cfg s now st).2.rtt = st.rtt) ∧
      (∀ v, s.jitterSq = some v → sqrtGT v cfg.jitter = false →
        "jitter" ∉ (check_thresholds cfg s now st).1 ∧
          (check_thresholds cfg s now st).2.jitter = st.jitter) ∧
      (¬(s.loss_rate > cfg.loss_rate) →
        "loss_rate" ∉ (check_thresholds cfg s now st).1 ∧
          (check_thresholds cfg s now st).2.loss_rate = st.loss_rate)) ∧
    (∀ (thr cd t0 v0 : ℚ) (rest : List (ℚ × ℚ)),
      v0 > thr → (∀ p ∈ rest, p.1 - t0 ≤ cd) →
      runAlerts thr cd ((t0, v0) :: rest) none = (1, some t0)) := by
  refine ⟨fun cfg s now st => ⟨?_, ?_, ?_⟩, ?_⟩
  · intro a ha hle
    have hb : optGT s.avg cfg.rtt = false := by simp [optGT, ha, hle]
    constructor
    · rw [check_thresholds_fst, (mem_notif_cat _ _ _).1, hb,
        gatedDispatch_no_breach]
      simp
    · show (gatedDispatch cfg.alert_cooldown (optGT s.avg cfg.rtt) now st.rtt).2
        = st.rtt
      rw [hb, gatedDispatch_no_breach]
  · intro v hv hle
    have hb : optSqrtGT s.jitterSq cfg.jitter = false := by
      simp [optSqrtGT, hv, hle]
    constructor
    · rw [check_thresholds_fst, (mem_notif_cat _ _ _).2.1, hb,
        gatedDispatch_no_breach]
      simp
    · show (gatedDispatch cfg.alert_cooldown (optSqrtGT s.jitterSq cfg.jitter)
        now st.jitter).2 = st.jitter
      rw [hb, gatedDispatch_no_breach]
  · intro hle
    have hb : decide (s.loss_rate > cfg.loss_rate) = false := by simp [hle]
    constructor
    · rw [check_thresholds_fst, (mem_notif_cat _ _ _).2.2, hb,
        gatedDispatch_no_breach]
      simp
    · show (gatedDispatch cfg.alert_cooldown
        (decide (s.loss_rate > cfg.loss_rate)) now st.loss_rate).2 = st.loss_rate
      rw [hb, gatedDispatch_no_breach]
  · exact fun thr cd t0 v0 rest h0 hcd => runAlerts_first_fire thr cd t0 v0 rest h0 hcd

/-- Witness for C5: with the default thresholds, a snapshot entirely below
threshold leaves the prior `last_alert_time` untouched and sends nothing;
and a breach at time 0, recovery at 100 and re-breach at 200 (all within
the 300 s cooldown) dispatch exactly the first notification. -/
theorem claim_C5_witness :
    ((⟨some 50, some 60, some 40, some 4, 2⟩ : AlertStats).avg = some 50 ∧
      ¬((50 : ℚ) > defaultConfig.rtt) ∧
      ("rtt" ∉ (check_thresholds defaultConfig ⟨some 50, some 60, some 40, some 4, 2⟩
          7 ⟨some 3, none, none⟩).1 ∧
        (check_thresholds defaultConfig ⟨some 50, some 60, some 40, some 4, 2⟩
          7 ⟨some 3, none, none⟩).2.rtt = some 3)) ∧
    ((150 : ℚ) > 100 ∧
      (∀ p ∈ [((100 : ℚ), (50 : ℚ)), (200, 150)], p.1 - 0 ≤ 300) ∧
      runAlerts 100 300 [(0, 150), (100, 50), (200, 150)] none = (1, some 0)) :=
  ⟨⟨rfl, by decide,
      (claim_C5_no_breach_frame.1 defaultConfig ⟨some 50, some 60, some 40, some 4, 2⟩
        7 ⟨some 3, none, none⟩).1 50 rfl (by decide)⟩,
    ⟨by decide, by decide,
      claim_C5_no_breach_frame.2 100 300 0 150 [(100, 50), (200, 150)]
        (by decide) (by decide)⟩⟩

/-- Claim C2: for every window that is empty or has no successful record,
`calculate_statistics` returns `None` (no snapshot at all, so in particular
no NaN-laden numeric snapshot), and the monitor tick performs no alert
evaluation: nothing is dispatched and the alert state is untouched. -/
theorem claim_C2_no_success_no_signal (cfg : Config) (records : List Record)
    (now : ℚ) (st : AlertState)
    (h : successfulPings (extractWindow records now cfg.window_size) = []) :
    calculate_statistics (extractWindow records now cfg.window_size) = none ∧
    monitorTick cfg records now st = ([], st) :=
  ⟨calculate_statistics_none_of_no_success h, monitorTick_no_success h⟩

/-- Witness for C2: a window holding one failed probe. -/
theorem claim_C2_witness :
    successfulPings (extractWindow [rF 1] 2 defaultConfig.window_size) = [] ∧
    (calculate_statistics (extractWindow [rF 1] 2 defaultConfig.window_size) = none ∧
      monitorTick defaultConfig [rF 1] 2 AlertState.empty = ([], AlertState.empty)) :=
  ⟨by decide, claim_C2_no_success_no_signal defaultConfig [rF 1] 2 AlertState.empty
    (by decide)⟩

/-- Claim C10: whenever `calculate_statistics` returns a snapshot, the
window holds at least one successful record and the returned `loss_rate`
is strictly below 100; consequently a window of only failed probes never
triggers a `loss_rate` alert, whatever the configured thresholds. -/
theorem claim_C10_loss_rate_invariant :
    (∀ (df : List Record) (s : AlertStats), calculate_statistics df = some s →
      1 ≤ (successfulPings df).length ∧ s.loss_rate < 100) ∧
    (∀ (cfg : Config) (records : List Record) (now : ℚ) (st : AlertState),
      (∀ r ∈ extractWindow records now cfg.window_size, r.isSuccess = false) →
      monitorTick cfg records now st = ([], st)) := by
  constructor
  · intro df s h
    obtain ⟨hne, hs⟩ := calculate_statistics_eq_some h
    have hlen : 1 ≤ (successfulPings df).length := List.length_pos.mpr hne
    refine ⟨hlen, ?_⟩
    have ha : (1 : ℚ) ≤ ((successfulPings df).length : ℚ) := by exact_mod_cast hlen
    have han : ((successfulPings df).length : ℚ) ≤ (df.length : ℚ) := by
      exact_mod_cast List.length_filter_le _ _
    have := (loss_rate_formula_bounds ha han).2
    rw [hs]
    exact this
  · intro cfg records now st h
    refine monitorTick_no_success (List.filter_eq_nil_iff.mpr ?_)
    intro r hr
    simp [h r hr]

/-- Witness for C10: a mixed success/failure window yields `loss_rate`
50 < 100; a window with only a failed probe produces no alerts at all
under the default configuration. -/
theorem claim_C10_witness :
    (calculate_statistics [rS 0 10, rF 1]
        = some ⟨some 10, some 10, some 10, none, 50⟩ ∧
      (1 ≤ (successfulPings [rS 0 10, rF 1]).length ∧
        (⟨some 10, some 10, some 10, none, 50⟩ : AlertStats).loss_rate < 100)) ∧
    ((∀ r ∈ extractWindow [rF 1] 2 defaultConfig.window_size,
        r.isSuccess = false) ∧
      monitorTick defaultConfig [rF 1] 2 AlertState.empty
        = ([], AlertState.empty)) :=
  ⟨⟨by decide, claim_C10_loss_rate_invariant.1 [rS 0 10, rF 1] _ (by decide)⟩,
    ⟨by decide, claim_C10_loss_rate_invariant.2 defaultConfig [rF 1] 2
      AlertState.empty (by decide)⟩⟩

/-- Counterexample to C3 as stated: for the non-empty, all-failed window
`[rF 1]` neither statistics engine computes any `loss_rate` at all — both
return `None`/`{}` — so the claimed "loss_rate equals exactly 100 when no
record in the window is successful" is false: there is no computed
loss_rate for such a window. -/
theorem claim_C3_counterexample :
    calculate_statistics [rF 1] = none ∧ calculate_stats [rF 1] = none := by
  decide

/-- Claim C3 (amended): a snapshot is produced exactly when the window has
a successful (for the dashboard: valid, i.e. successful with
`0 < rtt < 1000`) record; in that case the alert module's `loss_rate` is
`(1 - successful/total) * 100` and the dashboard's `packet_loss` is
`(1 - valid/total) * 100`, both with all records as denominator, and both
lie in `[0, 100)` — strictly below 100.  All-failed windows yield no
snapshot (and hence no loss_rate) instead of `loss_rate = 100`. -/
theorem claim_C3_amended (df : List Record) :
    (calculate_statistics df = none ↔ successfulPings df = []) ∧
    (calculate_stats df = none ↔ validPings df = []) ∧
    (∀ s : AlertStats, calculate_statistics df = some s →
      s.loss_rate
          = (1 - ((successfulPings df).length : ℚ) / (df.length : ℚ)) * 100 ∧
        0 ≤ s.loss_rate ∧ s.loss_rate < 100) ∧
    (∀ d : DashStats, calculate_stats df = some d →
      d.packet_loss
          = (1 - ((validPings df).length : ℚ) / (df.length : ℚ)) * 100 ∧
        0 ≤ d.packet_loss ∧ d.packet_loss < 100) := by
  refine ⟨calculate_statistics_none_iff df, calculate_stats_none_iff df, ?_, ?_⟩
  · intro s h
    obtain ⟨hne, hs⟩ := calculate_statistics_eq_some h
    have ha : (1 : ℚ) ≤ ((successfulPings df).length : ℚ) := by
      exact_mod_cast List.length_pos.mpr hne
    have han : ((successfulPings df).length : ℚ) ≤ (df.length : ℚ) := by
      exact_mod_cast List.length_filter_le _ _
    have hb := loss_rate_formula_bounds ha han
    rw [hs]
    exact ⟨rfl, hb.1, hb.2⟩
  · intro d h
    obtain ⟨hne, hd⟩ := calculate_stats_eq_some h
    have ha : (1 : ℚ) ≤ ((validPings df).length : ℚ) := by
      exact_mod_cast List.length_pos.mpr hne
    have han : ((validPings df).length : ℚ) ≤ (df.length : ℚ) := by
      exact_mod_cast List.length_filter_le _ _
    have hb := loss_rate_formula_bounds ha han
    rw [hd]
    exact ⟨rfl, hb.1, hb.2⟩

/-- Witness for the amended C3 on a half-lost window: one success, one
failure gives `loss_rate = packet_loss = 50`, within `[0, 100)`. -/
theorem claim_C3_witness :
    (calculate_statistics [rS 0 10, rF 1]
        = some ⟨some 10, some 10, some 10, none, 50⟩ ∧
      ((⟨some 10, some 10, some 10, none, 50⟩ : AlertStats).loss_rate
          = (1 - ((successfulPings [rS 0 10, rF 1]).length : ℚ) /
            (([rS 0 10, rF 1] : List Record).length : ℚ)) * 100 ∧
        0 ≤ (⟨some 10, some 10, some 10, none, 50⟩ : AlertStats).loss_rate ∧
        (⟨some 10, some 10, some 10, none, 50⟩ : AlertStats).loss_rate < 100)) ∧
    (calculate_stats [rS 0 10, rF 1]
        = some ⟨some 10, some 10, some 10, none, 50, some 10, some 0, some 0⟩ ∧
      ((⟨some 10, some 10, some 10, none, 50, some 10, some 0, some 0⟩ :
            DashStats).packet_loss
          = (1 - ((validPings [rS 0 10, rF 1]).length : ℚ) /
            (([rS 0 10, rF 1] : List Record).length : ℚ)) * 100 ∧
        0 ≤ (⟨some 10, some 10, some 10, none, 50, some 10, some 0, some 0⟩ :
          DashStats).packet_loss ∧
        (⟨some 10, some 10, some 10, none, 50, some 10, some 0, some 0⟩ :
          DashStats).packet_loss < 100)) :=
  ⟨⟨by decide, (claim_C3_amended [rS 0 10, rF 1]).2.2.1 _ (by decide)⟩,
    ⟨by decide, (claim_C3_amended [rS 0 10, rF 1]).2.2.2 _ (by decide)⟩⟩

/-- Counterexample to C4 as stated: the alert module's window filter keeps
a record whose timestamp (5) is strictly greater than the evaluation time
(`now = 0`), because the filter `timestamp > now - window_size` has no
upper bound — the claimed interval `(now - window_size, now]` is wrong. -/
theorem claim_C4_counterexample :
    extractWindow [rS 5 10] 0 300 = [rS 5 10] ∧ (rS 5 10).timestamp > 0 := by
  decide

/-- Claim C4 (amended): the alert module's window is the ordered
subsequence of records with `timestamp` in `(now - window_size, ∞)` (no
upper bound), empty iff no record qualifies; the visualizer's window uses
`now := max timestamp of the data` and the closed interval
`[now - window_size, now]`. -/
theorem claim_C4_amended (records : List Record) (now ws : ℚ) :
    List.Sublist (extractWindow records now ws) records ∧
    (∀ r, r ∈ extractWindow records now ws ↔
      r ∈ records ∧ now - ws < r.timestamp) ∧
    (extractWindow records now ws = [] ↔
      ∀ r ∈ records, r.timestamp ≤ now - ws) ∧
    List.Sublist (visWindow records ws) records ∧
    (∀ cur, listMax (records.map Record.timestamp) = some cur →
      ∀ r, r ∈ visWindow records ws ↔
        r ∈ records ∧ cur - ws ≤ r.timestamp ∧ r.timestamp ≤ cur) := by
  refine ⟨List.filter_sublist _, ?_, ?_, ?_, ?_⟩
  · intro r
    rw [extractWindow, List.mem_filter, decide_eq_true_eq]
  · rw [extractWindow, List.filter_eq_nil_iff]
    simp [not_lt]
  · unfold visWindow
    cases listMax (records.map Record.timestamp)
    · exact List.nil_sublist _
    · exact List.filter_sublist _
  · intro cur hc r
    simp only [visWindow, hc, List.mem_filter, Bool.and_eq_true, decide_eq_true_eq]

/-- Witness for the amended C4: with data at times 0 and 25 and a 10-second
window, the visualizer window is anchored at the data maximum 25, so the
record at time 0 is excluded while the record at 25 is kept. -/
theorem claim_C4_witness :
    listMax ([rS 0 1, rS 25 3].map Record.timestamp) = some 25 ∧
    (rS 0 1 ∈ visWindow [rS 0 1, rS 25 3] 10 ↔
      rS 0 1 ∈ [rS 0 1, rS 25 3] ∧ 25 - 10 ≤ (rS 0 1).timestamp ∧
        (rS 0 1).timestamp ≤ 25) ∧
    (rS 25 3 ∈ visWindow [rS 0 1, rS 25 3] 10 ↔
      rS 25 3 ∈ [rS 0 1, rS 25 3] ∧ 25 - 10 ≤ (rS 25 3).timestamp ∧
        (rS 25 3).timestamp ≤ 25) :=
  ⟨by decide,
    (claim_C4_amended [rS 0 1, rS 25 3] 0 10).2.2.2.2 25 (by decide) (rS 0 1),
    (claim_C4_amended [rS 0 1, rS 25 3] 0 10).2.2.2.2 25 (by decide) (rS 25 3)⟩

theorem diffs_length (l : List (Option ℚ)) : (diffs l).length = l.length := by
  cases l with
  | nil => rfl
  | cons x xs => simp [diffs, List.length_zipWith]

theorem rtt_diff_ceiled_length (df : List Record) :
    (rtt_diff_ceiled df).length = df.length := by
  simp [rtt_diff_ceiled, rtt_diff, diffs_length]

theorem ceilDiff_le_100 {x : Option ℚ} {d : ℚ} (h : ceilDiff x = some d) :
    |d| ≤ 100 := by
  cases x with
  | none => exact absurd h (by simp [ceilDiff])
  | some v =>
    by_cases h100 : |v| > 100
    · simp [ceilDiff, h100] at h
    · rw [ceilDiff] at h
      simp only [if_neg h100, Option.some_inj] at h
      subst h
      exact not_lt.mp h100

theorem mem_rtt_diff_ceiled_le {df : List Record} {d : ℚ}
    (h : some d ∈ rtt_diff_ceiled df) : |d| ≤ 100 := by
  obtain ⟨x, -, hx⟩ := List.mem_map.mp h
  exact ceilDiff_le_100 hx

theorem zip_diff_ceiled (df : List Record) :
    (rtt_diff df).zip (rtt_diff_ceiled df)
      = (rtt_diff df).map fun x => (x, ceilDiff x) := by
  have h := List.zip_map' id ceilDiff (rtt_diff df)
  simpa [rtt_diff_ceiled] using h

theorem filterMap_fst_sublist {α β γ : Type} (l : List (α × β))
    (g : α × β → Option (α × γ)) (hg : ∀ p q, g p = some q → q.1 = p.1) :
    List.Sublist ((l.filterMap g).map Prod.fst) (l.map Prod.fst) := by
  induction l with
  | nil => simp
  | cons p rest ih =>
    cases hq : g p with
    | none =>
      rw [List.filterMap_cons_none hq, List.map_cons]
      exact ih.cons p.1
    | some q =>
      rw [List.filterMap_cons_some hq, List.map_cons, List.map_cons, hg p q hq]
      exact ih.cons₂ p.1

theorem detect_microbursts_mem_iff (threshold : ℚ) (df : List Record)
    (r : Record) (d : ℚ) :
    (r, d) ∈ detect_microbursts threshold df ↔
      (r, some d) ∈ df.zip (rtt_diff_ceiled df) ∧ |d| > threshold := by
  unfold detect_microbursts
  by_cases hdf : df.isEmpty = true
  · have : df = [] := by simpa using hdf
    subst this
    simp
  · rw [if_neg hdf]
    constructor
    · intro h
      obtain ⟨⟨pr, pd⟩, hp, hg⟩ := List.mem_filterMap.mp h
      cases pd with
      | none => exact absurd hg (by simp)
      | some v =>
        by_cases hv : |v| > threshold
        · simp only [if_pos hv, Option.some_inj, Prod.mk.injEq] at hg
          obtain ⟨rfl, rfl⟩ := hg
          exact ⟨hp, hv⟩
        · simp [hv] at hg
    · rintro ⟨hmem, hgt⟩
      exact List.mem_filterMap.mpr ⟨(r, some d), hmem, by simp [hgt]⟩

/-- Claim C6: the microburst detector first-differences the `rtt` column;
an entry whose absolute diff exceeds the 100 ms sanity ceiling is blanked
out of the (ceiled) diff signal and can never appear in the flagged set,
every surviving entry whose absolute diff exceeds `diff_threshold` is
flagged, the flagged rows form an ordered subsequence of the window, and
the result is empty when no entry qualifies. -/
theorem claim_C6_microburst_detector (threshold : ℚ) (df : List Record) :
    (∀ p ∈ (rtt_diff df).zip (rtt_diff_ceiled df),
      (∀ d, p.1 = some d → |d| > 100 → p.2 = none) ∧
      (∀ d, p.1 = some d → |d| ≤ 100 → p.2 = some d)) ∧
    (∀ (r : Record) (d : ℚ), (r, d) ∈ detect_microbursts threshold df ↔
      (r, some d) ∈ df.zip (rtt_diff_ceiled df) ∧ |d| > threshold) ∧
    (∀ (r : Record) (d : ℚ), (r, d) ∈ detect_microbursts threshold df →
      |d| ≤ 100) ∧
    List.Sublist ((detect_microbursts threshold df).map Prod.fst) df ∧
    ((∀ p ∈ df.zip (rtt_diff_ceiled df), ∀ d, p.2 = some d → |d| ≤ threshold) →
      detect_microbursts threshold df = []) := by
  refine ⟨?_, detect_microbursts_mem_iff threshold df, ?_, ?_, ?_⟩
  · intro p hp
    rw [zip_diff_ceiled] at hp
    obtain ⟨x, -, rfl⟩ := List.mem_map.mp hp
    constructor
    · rintro d rfl h100
      simp [ceilDiff, h100]
    · rintro d rfl h100
      simp [ceilDiff, not_lt.mpr h100]
  · intro r d h
    have hmem := ((detect_microbursts_mem_iff threshold df r d).mp h).1
    exact mem_rtt_diff_ceiled_le (List.of_mem_zip hmem).2
  · unfold detect_microbursts
    by_cases hdf : df.isEmpty = true
    · rw [if_pos hdf]
      exact List.nil_sublist _
    · rw [if_neg hdf]
      have hg : ∀ (p : Record × Option ℚ) (q : Record × ℚ),
          (match p.2 with
            | some d => if |d| > threshold then some (p.1, d) else none
            | none => none) = some q → q.1 = p.1 := by
        rintro ⟨pr, pd⟩ q hq
        cases pd with
        | none => exact absurd hq (by simp)
        | some v =>
          by_cases hv : |v| > threshold
          · simp only [if_pos hv, Option.some_inj] at hq
            rw [← hq]
          · simp [hv] at hq
      have hlen : df.length ≤ (rtt_diff_ceiled df).length := by
        rw [rtt_diff_ceiled_length]
      have hfst : (df.zip (rtt_diff_ceiled df)).map Prod.fst = df :=
        List.map_fst_zip _ _ hlen
      have hsub := filterMap_fst_sublist (df.zip (rtt_diff_ceiled df)) _ hg
      rwa [hfst] at hsub
  · intro hall
    rw [List.eq_nil_iff_forall_not_mem]
    rintro ⟨r, d⟩ hx
    obtain ⟨hmem, hgt⟩ := (detect_microbursts_mem_iff threshold df r d).mp hx
    exact absurd hgt (not_lt.mpr (hall (r, some d) hmem d rfl))

/-- Witness for C6: rtt series 10, 12, 500, 13 under threshold 1/2 — the
jump to 500 (diff 488) and back (diff −487) exceed the ceiling and are
blanked, so only the 10→12 step (diff 2) is flagged; and a series with no
qualifying diff yields the empty flag list. -/
theorem claim_C6_witness :
    ((rS 1 12, (2 : ℚ)) ∈
        detect_microbursts (1/2) [rS 0 10, rS 1 12, rS 2 500, rS 3 13] ↔
      ((rS 1 12, some (2 : ℚ)) ∈
          ([rS 0 10, rS 1 12, rS 2 500, rS 3 13].zip
            (rtt_diff_ceiled [rS 0 10, rS 1 12, rS 2 500, rS 3 13])) ∧
        |(2 : ℚ)| > 1/2)) ∧
    ((∀ p ∈ ([rS 0 10, rS 1 (51/5)].zip (rtt_diff_ceiled [rS 0 10, rS 1 (51/5)])),
        ∀ d, p.2 = some d → |d| ≤ (1/2 : ℚ)) ∧
      detect_microbursts (1/2) [rS 0 10, rS 1 (51/5)] = []) :=
  ⟨(claim_C6_microburst_detector (1/2)
      [rS 0 10, rS 1 12, rS 2 500, rS 3 13]).2.1 (rS 1 12) 2,
    by decide,
    (claim_C6_microburst_detector (1/2) [rS 0 10, rS 1 (51/5)]).2.2.2.2
      (by decide)⟩

/-- Claim C7 is right and the code is wrong (code bug): the spec requires a
malformed row to be dropped individually with the tick proceeding on the
remaining rows, but `pd.to_datetime(df['timestamp'])` (default
`errors='raise'`) raises on one unparsable cell, the alert module's
`except` then skips the whole tick, and the visualizer's `load_data`
returns an empty frame — the well-formed rows of that tick are lost too.
Here the alert the hot row would have raised alone is suppressed as soon
as one garbage row accompanies it. -/
theorem claim_C7_malformed_row_fatal :
    monitorTickRaw defaultConfig [hotRow] 1 AlertState.empty
      = (["rtt"], ⟨some 1, none, none⟩) ∧
    monitorTickRaw defaultConfig [hotRow, badRow] 1 AlertState.empty
      = ([], AlertState.empty) ∧
    to_datetime [hotRow, badRow] = Except.error () ∧
    load_data [hotRow, badRow] = [] ∧
    load_data [hotRow] = [⟨0, some 150, "success", 0, 0⟩] :=
  ⟨by decide, rfl, rfl, rfl, rfl⟩

theorem quantileLinear_singleton (x q : ℚ) : quantileLinear [x] q = some x := by
  unfold quantileLinear
  norm_num [List.insertionSort, List.orderedInsert]

theorem calculate_stats_p99 {df : List Record} {d : DashStats}
    (h : calculate_stats df = some d) :
    d.p99 = quantileLinear (vrtts df) (99 / 100) := by
  obtain ⟨-, hd⟩ := calculate_stats_eq_some h
  rw [hd]

/-- Counterexample to C8 as stated: the window `[rS 0 10, rS 1 1500]` has
two successful records, and the sample standard deviation of their rtts is
defined (its square is 1110050), yet the dashboard snapshot's jitter is NaN
(`none`): the `rtt < 1000` validity filter drops the 1500 ms success, so
the dashboard does not compute jitter over the successful records. -/
theorem claim_C8_counterexample :
    (successfulPings [rS 0 10, rS 1 1500]).length = 2 ∧
    sampleVar (srtts [rS 0 10, rS 1 1500]) = some 1110050 ∧
    (calculate_stats [rS 0 10, rS 1 1500]).map DashStats.jitterSq
      = some none := by
  decide

/-- Claim C8 (amended): the alert module's jitter is the sample standard
deviation (`ddof = 1`, carried as its square `jitterSq`) of the non-null
rtts of the *successful* records, NaN (`none`) exactly when fewer than two
such values exist; the dashboard computes the same statistic but over its
*valid* records (successful with `0 < rtt < 1000`), NaN exactly when fewer
than two of those exist.  The under-2-samples convention is `undefined`
(never 0) in both engines. -/
theorem claim_C8_amended (df : List Record) :
    (∀ s : AlertStats, calculate_statistics df = some s →
      s.jitterSq = sampleVar (srtts df) ∧
        (s.jitterSq = none ↔ (srtts df).length < 2) ∧
        (2 ≤ (srtts df).length →
          s.jitterSq = some ((((srtts df).map fun x =>
              (x - (srtts df).sum / ((srtts df).length : ℚ)) ^ 2).sum) /
            (((srtts df).length : ℚ) - 1)))) ∧
    (∀ d : DashStats, calculate_stats df = some d →
      d.jitterSq = sampleVar (vrtts df) ∧
        (d.jitterSq = none ↔ (vrtts df).length < 2) ∧
        (2 ≤ (vrtts df).length →
          d.jitterSq = some ((((vrtts df).map fun x =>
              (x - (vrtts df).sum / ((vrtts df).length : ℚ)) ^ 2).sum) /
            (((vrtts df).length : ℚ) - 1)))) := by
  constructor
  · intro s h
    obtain ⟨-, hs⟩ := calculate_statistics_eq_some h
    refine ⟨by rw [hs], ?_, ?_⟩
    · rw [hs]
      exact sampleVar_none_iff _
    · intro h2
      rw [hs]
      exact sampleVar_of_two_le h2
  · intro d h
    obtain ⟨-, hd⟩ := calculate_stats_eq_some h
    refine ⟨by rw [hd], ?_, ?_⟩
    · rw [hd]
      exact sampleVar_none_iff _
    · intro h2
      rw [hd]
      exact sampleVar_of_two_le h2

/-- Witness for the amended C8 on the window with successful rtts 10 and
12: both engines report the sample variance 2 (std √2). -/
theorem claim_C8_witness :
    (calculate_statistics [rS 0 10, rS 1 12]
        = some ⟨some 11, some 12, some 10, some 2, 0⟩ ∧
      ((⟨some 11, some 12, some 10, some 2, 0⟩ : AlertStats).jitterSq
          = sampleVar (srtts [rS 0 10, rS 1 12]) ∧
        ((⟨some 11, some 12, some 10, some 2, 0⟩ : AlertStats).jitterSq = none ↔
          (srtts [rS 0 10, rS 1 12]).length < 2) ∧
        (2 ≤ (srtts [rS 0 10, rS 1 12]).length →
          (⟨some 11, some 12, some 10, some 2, 0⟩ : AlertStats).jitterSq
            = some ((((srtts [rS 0 10, rS 1 12]).map fun x =>
                (x - (srtts [rS 0 10, rS 1 12]).sum /
                  ((srtts [rS 0 10, rS 1 12]).length : ℚ)) ^ 2).sum) /
              (((srtts [rS 0 10, rS 1 12]).length : ℚ) - 1))))) ∧
    (calculate_stats [rS 0 10, rS 1 12]
        = some ⟨some 11, some 10, some 12, some 2, 0, some (599/50), some 0, some 0⟩ ∧
      ((⟨some 11, some 10, some 12, some 2, 0, some (599/50), some 0, some 0⟩ :
            DashStats).jitterSq = sampleVar (vrtts [rS 0 10, rS 1 12]) ∧
        ((⟨some 11, some 10, some 12, some 2, 0, some (599/50), some 0, some 0⟩ :
            DashStats).jitterSq = none ↔
          (vrtts [rS 0 10, rS 1 12]).length < 2) ∧
        (2 ≤ (vrtts [rS 0 10, rS 1 12]).length →
          (⟨some 11, some 10, some 12, some 2, 0, some (599/50), some 0, some 0⟩ :
              DashStats).jitterSq
            = some ((((vrtts [rS 0 10, rS 1 12]).map fun x =>
                (x - (vrtts [rS 0 10, rS 1 12]).sum /
                  ((vrtts [rS 0 10, rS 1 12]).length : ℚ)) ^ 2).sum) /
              (((vrtts [rS 0 10, rS 1 12]).length : ℚ) - 1))))) :=
  ⟨⟨by decide, (claim_C8_amended [rS 0 10, rS 1 12]).1 _ (by decide)⟩,
    ⟨by decide, (claim_C8_amended [rS 0 10, rS 1 12]).2 _ (by decide)⟩⟩

/-- Counterexample to C9 as stated: the alert module produces a snapshot
for the single-success window `[rS 0 10]`, but its dict has no `p99` key
at all — the snapshot fields are exactly
`{avg, max, min, jitter, loss_rate}`. -/
theorem claim_C9_counterexample :
    calculate_statistics [rS 0 10] = some ⟨some 10, some 10, some 10, none, 0⟩ ∧
    "p99" ∉ alertStatsKeys := by
  decide

/-- Claim C9 (amended): only the dashboard snapshot carries a 99th
percentile (key `'99th_percentile'`); the alert module's snapshot has no
p99 field.  The dashboard's value is the linear-interpolation quantile of
the rtts of its valid records at `q = 0.99`, and on a single sample it
equals that sample. -/
theorem claim_C9_amended :
    ("p99" ∉ alertStatsKeys ∧ "99th_percentile" ∉ alertStatsKeys ∧
      "99th_percentile" ∈ dashStatsKeys) ∧
    (∀ (df : List Record) (d : DashStats), calculate_stats df = some d →
      d.p99 = quantileLinear (vrtts df) (99 / 100)) ∧
    (∀ x q : ℚ, quantileLinear [x] q = some x) ∧
    (∀ (df : List Record) (d : DashStats) (x : ℚ), calculate_stats df = some d →
      vrtts df = [x] → d.p99 = some x) := by
  refine ⟨by decide, fun df d h => calculate_stats_p99 h,
    quantileLinear_singleton, ?_⟩
  intro df d x h hx
  rw [calculate_stats_p99 h, hx, quantileLinear_singleton]

/-- Witness for the amended C9: one valid sample (rtt 10) gives
`p99 = 10`. -/
theorem claim_C9_witness :
    calculate_stats [rS 0 10]
        = some ⟨some 10, some 10, some 10, none, 0, some 10, some 0, some 0⟩ ∧
    vrtts [rS 0 10] = [10] ∧
    (⟨some 10, some 10, some 10, none, 0, some 10, some 0, some 0⟩ :
      DashStats).p99 = some 10 :=
  ⟨by decide, by decide,
    claim_C9_amended.2.2.2 [rS 0 10] _ 10 (by decide) (by decide)⟩

end Proofs

end NetMon
